import Mathlib

/-!
Verification of the datasets-server core: the split-discovery job runner
(`worker/job_runners/split_names_from_streaming.py`), the API configuration
(`api/config.py`), and the access gate / endpoint validation behaviour
exercised by `api/tests/test_app.py`.

Python values are embedded shallowly: strings stay `String`, HTTP statuses
are `Nat`, Python `set` becomes `Finset`, exceptions become `Except`, and
the external `datasets` library call is a parameter describing its outcome.
-/

namespace DatasetsServer

/-- Outcome of the external `get_dataset_split_names` call: either a list of
split names (in the order the library reports them), the library's
`EmptyDatasetError`, or any other exception.  The carried string stands for
the underlying exception object. -/
inductive ExternalResult where
  | ok (splits : List String)
  | emptyDatasetError (err : String)
  | otherError (err : String)
deriving DecidableEq, Repr

/-- The `use_auth_token` argument passed to the external library:
`hf_token` when present, Python `False` (anonymous access) otherwise. -/
inductive UseAuthToken where
  | tok (t : String)
  | anonymous
deriving DecidableEq, Repr

/-- `use_auth_token = hf_token if hf_token is not None else False`. -/
def useAuthTokenOf : Option String → UseAuthToken
  | some t => UseAuthToken.tok t
  | none => UseAuthToken.anonymous

/-- The data carried by every `JobRunnerError`: message, HTTP status code,
stable error-code string, optional cause, and the disclosure flag. -/
structure JobRunnerErrorData where
  message : String
  status_code : Nat
  code : String
  cause : Option String
  disclose_cause : Bool
deriving DecidableEq, Repr

/-- `SplitNamesFromStreamingError(message, cause)`: built with
`HTTPStatus.INTERNAL_SERVER_ERROR`, code `"SplitNamesFromStreamingError"`,
and `disclose_cause=True`. -/
def SplitNamesFromStreamingError (message : String) (cause : Option String) :
    JobRunnerErrorData :=
  { message := message
    status_code := 500
    code := "SplitNamesFromStreamingError"
    cause := cause
    disclose_cause := true }

/-- `EmptyDatasetError(message, cause)`: built with
`HTTPStatus.INTERNAL_SERVER_ERROR`, code `"EmptyDatasetError"`, and
`disclose_cause=True`. -/
def EmptyDatasetError (message : String) (cause : Option String) :
    JobRunnerErrorData :=
  { message := message
    status_code := 500
    code := "EmptyDatasetError"
    cause := cause
    disclose_cause := true }

/-- One item of the response content: `{"dataset": ..., "config": ..., "split": ...}`. -/
structure SplitNameItem where
  dataset : String
  config : String
  split : String
deriving DecidableEq, Repr

/-- `SplitNamesFromStreamingResponseContent`: `{"split_names": [...]}`. -/
structure SplitNamesFromStreamingResponseContent where
  split_names : List SplitNameItem
deriving DecidableEq, Repr

/-- `compute_split_names_from_streaming_response(dataset, config, hf_token)`.
The external library call is embedded as `src`, a function from the
`use_auth_token` value to the call's outcome for this dataset and config.
On success every reported split becomes `{"dataset": dataset, "config":
config, "split": str(split)}` in the reported order; the library's
`EmptyDatasetError` is re-raised as `EmptyDatasetError("The dataset is
empty.", cause=err)`; any other exception is wrapped in
`SplitNamesFromStreamingError(..., cause=err)`. -/
def compute_split_names_from_streaming_response
    (dataset : String) (config : String) (hf_token : Option String)
    (src : UseAuthToken → ExternalResult) :
    Except JobRunnerErrorData SplitNamesFromStreamingResponseContent :=
  match src (useAuthTokenOf hf_token) with
  | ExternalResult.ok splits =>
      Except.ok
        { split_names :=
            splits.map (fun split => { dataset := dataset, config := config, split := split }) }
  | ExternalResult.emptyDatasetError err =>
      Except.error (EmptyDatasetError "The dataset is empty." (some err))
  | ExternalResult.otherError err =>
      Except.error
        (SplitNamesFromStreamingError
          ("Cannot get the split names for the config '" ++ config ++ "' of the dataset.")
          (some err))

/-- `SplitFullName` from `libcommon.simple_cache`: structural equality on
`(dataset, config, split)`. -/
structure SplitFullName where
  dataset : String
  config : String
  split : String
deriving DecidableEq, Repr

/-- `SplitNamesFromStreamingJobRunner.get_new_splits(content)`: the Python
set comprehension over `content["split_names"]`. -/
def get_new_splits (content : SplitNamesFromStreamingResponseContent) :
    Finset SplitFullName :=
  (content.split_names.map
    (fun s => SplitFullName.mk s.dataset s.config s.split)).toFinset

/-- `SplitNamesFromStreamingJobRunner.get_job_type()`. -/
def SplitNamesFromStreamingJobRunner.get_job_type : String :=
  "/split-names-from-streaming"

/-- `SplitNamesFromStreamingJobRunner.get_version()`. -/
def SplitNamesFromStreamingJobRunner.get_version : String :=
  "1.0.0"

/-- The state of a `SplitNamesFromStreamingJobRunner` that `compute` reads:
`self.dataset`, `self.config` (optional on the base class), and
`self.common_config.hf_token`. -/
structure SplitNamesFromStreamingJobRunner where
  dataset : String
  config : Option String
  common_hf_token : Option String
deriving DecidableEq, Repr

/-- A failure of `SplitNamesFromStreamingJobRunner.compute`: either the
Python `ValueError` raised when `self.config is None` (a programming error,
not a typed runner error), or one of the runner's typed errors. -/
inductive ComputeError where
  | valueError (msg : String)
  | runnerError (e : JobRunnerErrorData)
deriving DecidableEq, Repr

/-- `SplitNamesFromStreamingJobRunner.compute(self)`: raises
`ValueError("config is required")` when `self.config is None`, otherwise
delegates to `compute_split_names_from_streaming_response`.  The external
library call is again the parameter `src`. -/
def SplitNamesFromStreamingJobRunner.compute
    (self : SplitNamesFromStreamingJobRunner)
    (src : UseAuthToken → ExternalResult) :
    Except ComputeError SplitNamesFromStreamingResponseContent :=
  match self.config with
  | none => Except.error (ComputeError.valueError "config is required")
  | some config =>
      match compute_split_names_from_streaming_response self.dataset config
          self.common_hf_token src with
      | Except.ok content => Except.ok content
      | Except.error e => Except.error (ComputeError.runnerError e)

/-! ### API service: configuration and access gate -/

/-- `API_HF_AUTH_PATH` default from `api/config.py`. -/
def API_HF_AUTH_PATH : String := "/api/datasets/%s/auth-check"

/-- `API_MAX_AGE_LONG` default. -/
def API_MAX_AGE_LONG : Nat := 120

/-- `API_MAX_AGE_SHORT` default. -/
def API_MAX_AGE_SHORT : Nat := 10

/-- The part of `CommonConfig` that `ApiConfig.from_env` reads. -/
structure CommonConfig where
  hf_endpoint : String
deriving DecidableEq, Repr

/-- The environment variables `ApiConfig.from_env` reads (wrapped by the
`API_` prefix in the Python code); `none` means the variable is unset so
the default applies. -/
structure ApiEnv where
  hf_auth_path : Option String
  max_age_long : Option Nat
  max_age_short : Option Nat

/-- `ApiConfig` dataclass. -/
structure ApiConfig where
  external_auth_url : Option String
  hf_auth_path : String
  max_age_long : Nat
  max_age_short : Nat
deriving DecidableEq, Repr

/-- `ApiConfig.from_env(common_config)`.  `env.str` with a string default
always yields a string, so the Python guard `None if hf_auth_path is None`
always takes its else branch and `external_auth_url` is always
`f"{common_config.hf_endpoint}{hf_auth_path}"`. -/
def ApiConfig.from_env (env : ApiEnv) (common_config : CommonConfig) : ApiConfig :=
  let hf_auth_path := env.hf_auth_path.getD API_HF_AUTH_PATH
  { external_auth_url := some (common_config.hf_endpoint ++ hf_auth_path)
    hf_auth_path := hf_auth_path
    max_age_long := env.max_age_long.getD API_MAX_AGE_LONG
    max_age_short := env.max_age_short.getD API_MAX_AGE_SHORT }

/-- Python `template % arg` for a template using `%s` slots: replaces the
first `%s` with `arg` and keeps the rest of the template. -/
def substFirstPercentS : List Char → List Char → List Char
  | [], _ => []
  | '%' :: 's' :: rest, arg => arg ++ rest
  | ch :: rest, arg => ch :: substFirstPercentS rest arg

/-- String-level wrapper of `substFirstPercentS`. -/
def formatPercentS (template arg : String) : String :=
  String.mk (substFirstPercentS template.data arg.data)

/-- Number of `%s` slots in a template. -/
def countPercentS : List Char → Nat
  | [] => 0
  | '%' :: 's' :: rest => 1 + countPercentS rest
  | _ :: rest => countPercentS rest

/-- Modelled from the spec: the API authentication module (not among the
shown sources; exercised by `test_is_valid_auth`) obtains the authority URL
for a dataset by substituting the dataset name into the configured
template, `external_auth_url % dataset`. -/
def external_auth_url_for (cfg : ApiConfig) (dataset : String) : Option String :=
  cfg.external_auth_url.map (fun template => formatPercentS template dataset)

/-- `AuthDecision` from the spec's data model. -/
inductive AuthDecision where
  | Allowed
  | Denied (status : Nat) (code : String)
  | Unreachable (cause : String)
deriving DecidableEq, Repr

/-- The two opaque credential carriers forwarded to the authority. -/
structure Credentials where
  cookie : Option String
  authorization : Option String
deriving DecidableEq, Repr

/-- What the external authority can come back with. -/
inductive AuthorityResponse where
  | status (code : Nat)
  | networkFailure (cause : String)
deriving DecidableEq, Repr

/-- Modelled from the spec: the access gate (the API `auth_check`, not
among the shown sources; exercised by `test_is_valid_auth`).  It queries
the external authority with the dataset and forwarded credentials and maps
the response: 200 → Allowed; 401 → Denied(401,
"ExternalUnauthenticatedError"); 403 or 404 → Denied(404,
"ExternalAuthenticatedError"); network failure → Unreachable.  The spec
leaves other statuses unspecified; they are modelled as Unreachable. -/
def authorize (dataset : String) (credentials : Credentials)
    (authority : String → Credentials → AuthorityResponse) : AuthDecision :=
  match authority dataset credentials with
  | AuthorityResponse.networkFailure cause => AuthDecision.Unreachable cause
  | AuthorityResponse.status 200 => AuthDecision.Allowed
  | AuthorityResponse.status 401 =>
      AuthDecision.Denied 401 "ExternalUnauthenticatedError"
  | AuthorityResponse.status 403 =>
      AuthDecision.Denied 404 "ExternalAuthenticatedError"
  | AuthorityResponse.status 404 =>
      AuthDecision.Denied 404 "ExternalAuthenticatedError"
  | AuthorityResponse.status n =>
      AuthDecision.Unreachable ("unexpected status " ++ toString n)

/-- The query parameters of a public endpoint request; `none` when the
parameter is absent from the query string. -/
structure QueryParams where
  dataset : Option String
  config : Option String
  split : Option String
deriving DecidableEq, Repr

/-- Which parameters an endpoint requires besides the always-required
`dataset`, per the endpoint-to-steps mapping. -/
structure RequiredParams where
  needs_config : Bool
  needs_split : Bool
deriving DecidableEq, Repr

/-- A parameter satisfies the validation only when present and
non-empty. -/
def paramPresent : Option String → Bool
  | none => false
  | some s => !(s == "")

/-- A required parameter is missing or empty. -/
def missingRequiredParam (params : QueryParams) (required : RequiredParams) : Bool :=
  !paramPresent params.dataset
    || (required.needs_config && !paramPresent params.config)
    || (required.needs_split && !paramPresent params.split)

/-- Observable outcome of a public endpoint request. -/
inductive EndpointOutcome where
  | validationError (status : Nat)
  | denied (status : Nat) (code : String)
  | ok
  | authorityUnreachable (cause : String)
deriving DecidableEq, Repr

/-- Outcome plus which stages ran. -/
structure EndpointTrace where
  outcome : EndpointOutcome
  gate_consulted : Bool
  job_ran : Bool
deriving DecidableEq, Repr

/-- Modelled from the spec: the public endpoint handler (the API route
code, not among the shown sources; exercised by `test_get_endpoint` and
the missing-parameter tests).  Parameter validation runs first: a missing
or empty required parameter yields ValidationError 422 before the access
gate is consulted and before any job runs; otherwise the gate decides and
only Allowed lets the job run. -/
def processEndpointRequest (params : QueryParams) (required : RequiredParams)
    (credentials : Credentials)
    (authority : String → Credentials → AuthorityResponse) : EndpointTrace :=
  if missingRequiredParam params required then
    { outcome := EndpointOutcome.validationError 422
      gate_consulted := false
      job_ran := false }
  else
    match authorize (params.dataset.getD "") credentials authority with
    | AuthDecision.Allowed =>
        { outcome := EndpointOutcome.ok, gate_consulted := true, job_ran := true }
    | AuthDecision.Denied s c =>
        { outcome := EndpointOutcome.denied s c, gate_consulted := true, job_ran := false }
    | AuthDecision.Unreachable cause =>
        { outcome := EndpointOutcome.authorityUnreachable cause
          gate_consulted := true
          job_ran := false }

end DatasetsServer

namespace DatasetsServer

/-- C1: `compute_split_names_from_streaming_response` classifies exactly two
failure shapes: the external `EmptyDatasetError` becomes `EmptyDatasetError`
with `disclose_cause=True`, and any other exception becomes
`SplitNamesFromStreamingError` (the generic computation error) wrapping the
exception as its cause, also with `disclose_cause=True`. -/
theorem c1_failure_classification
    (dataset config : String) (hf_token : Option String) (err : String) :
    compute_split_names_from_streaming_response dataset config hf_token
        (fun _ => ExternalResult.emptyDatasetError err)
      = Except.error
          { message := "The dataset is empty."
            status_code := 500
            code := "EmptyDatasetError"
            cause := some err
            disclose_cause := true }
    ∧ compute_split_names_from_streaming_response dataset config hf_token
        (fun _ => ExternalResult.otherError err)
      = Except.error
          { message :=
              "Cannot get the split names for the config '" ++ config ++ "' of the dataset."
            status_code := 500
            code := "SplitNamesFromStreamingError"
            cause := some err
            disclose_cause := true } :=
  ⟨rfl, rfl⟩

/-- Helper: `get_new_splits` only depends on the membership of the
`split_names` list, so lists that agree up to permutation and duplication
give the same set. -/
theorem get_new_splits_congr {l1 l2 : List SplitNameItem}
    (h : l1.dedup.Perm l2.dedup) :
    get_new_splits { split_names := l1 } = get_new_splits { split_names := l2 } := by
  have hmem : ∀ x, x ∈ l1 ↔ x ∈ l2 :=
    List.toFinset.ext_iff.mp (List.toFinset_eq_iff_perm_dedup.mpr h)
  apply Finset.ext
  intro x
  simp only [get_new_splits, List.mem_toFinset, List.mem_map]
  constructor
  · rintro ⟨s, hs, rfl⟩
    exact ⟨s, (hmem s).mp hs, rfl⟩
  · rintro ⟨s, hs, rfl⟩
    exact ⟨s, (hmem s).mpr hs, rfl⟩

/-- C3: `get_new_splits` returns a set with no duplicates, insensitive to
the order of the `split_names` list: two contents whose lists agree up to
permutation and duplication yield equal sets, and the concrete example
`["a","a","b"]` under dataset `"d"`, config `"c"` yields exactly the
two-element set. -/
theorem c3_set_semantics (l1 l2 : List SplitNameItem)
    (h : l1.dedup.Perm l2.dedup) :
    get_new_splits { split_names := l1 } = get_new_splits { split_names := l2 }
    ∧ (get_new_splits { split_names := l1 }).val.Nodup
    ∧ get_new_splits
        { split_names :=
            [{ dataset := "d", config := "c", split := "a" },
             { dataset := "d", config := "c", split := "a" },
             { dataset := "d", config := "c", split := "b" }] }
      = {{ dataset := "d", config := "c", split := "a" },
         { dataset := "d", config := "c", split := "b" }} :=
  ⟨get_new_splits_congr h, Finset.nodup _, by decide⟩

/-- Witness for C3 at concrete lists related by permutation and
duplication. -/
theorem c3_set_semantics_witness :
    ([{ dataset := "d", config := "c", split := "a" },
      { dataset := "d", config := "c", split := "b" }] : List SplitNameItem).dedup.Perm
      ([{ dataset := "d", config := "c", split := "b" },
        { dataset := "d", config := "c", split := "a" },
        { dataset := "d", config := "c", split := "a" }] : List SplitNameItem).dedup
    ∧ get_new_splits
        { split_names :=
            [{ dataset := "d", config := "c", split := "a" },
             { dataset := "d", config := "c", split := "b" }] }
      = get_new_splits
        { split_names :=
            [{ dataset := "d", config := "c", split := "b" },
             { dataset := "d", config := "c", split := "a" },
             { dataset := "d", config := "c", split := "a" }] } :=
  ⟨by decide, (c3_set_semantics _ _ (by decide)).1⟩

/-- C5: on success the content's `split_names` lists the external source's
splits in exactly the reported order (each wrapped with the queried dataset
and config), while `get_new_splits` reduces that content to an unordered
(permutation-insensitive), duplicate-free set. -/
theorem c5_order_preserved_set_projection
    (d c : String) (tok : Option String) (splits : List String) :
    ∃ content : SplitNamesFromStreamingResponseContent,
      compute_split_names_from_streaming_response d c tok
          (fun _ => ExternalResult.ok splits)
        = Except.ok content
      ∧ content.split_names
          = splits.map (fun s => { dataset := d, config := c, split := s })
      ∧ content.split_names.map SplitNameItem.split = splits
      ∧ (get_new_splits content).val.Nodup
      ∧ ∀ l' : List SplitNameItem, l'.Perm content.split_names →
          get_new_splits { split_names := l' } = get_new_splits content := by
  refine ⟨_, rfl, rfl, ?_, Finset.nodup _, ?_⟩
  · induction splits with
    | nil => rfl
    | cons s ss ih => simpa using ih
  · intro l' hperm
    exact get_new_splits_congr hperm.dedup

/-- Witness for C5 at a concrete run with two splits. -/
theorem c5_order_preserved_set_projection_witness :
    ∃ content : SplitNamesFromStreamingResponseContent,
      compute_split_names_from_streaming_response "d" "c" none
          (fun _ => ExternalResult.ok ["b", "a"])
        = Except.ok content
      ∧ content.split_names
          = ["b", "a"].map (fun s => { dataset := "d", config := "c", split := s })
      ∧ content.split_names.map SplitNameItem.split = ["b", "a"]
      ∧ (get_new_splits content).val.Nodup
      ∧ ∀ l' : List SplitNameItem, l'.Perm content.split_names →
          get_new_splits { split_names := l' } = get_new_splits content :=
  c5_order_preserved_set_projection "d" "c" none ["b", "a"]

/-- C6: when the runner's `config` is absent, `compute` fails with the
`ValueError` programming error (which is not a typed runner error), and the
result does not depend on the external source: the source is never
invoked. -/
theorem c6_config_required
    (self : SplitNamesFromStreamingJobRunner)
    (src : UseAuthToken → ExternalResult)
    (h : self.config = none) :
    self.compute src = Except.error (ComputeError.valueError "config is required")
    ∧ (∀ src' : UseAuthToken → ExternalResult, self.compute src' = self.compute src)
    ∧ ∀ e : JobRunnerErrorData,
        ComputeError.valueError "config is required" ≠ ComputeError.runnerError e := by
  refine ⟨?_, ?_, fun e => by simp⟩
  · simp [SplitNamesFromStreamingJobRunner.compute, h]
  · intro src'
    simp [SplitNamesFromStreamingJobRunner.compute, h]

/-- Witness for C6 at a concrete runner with no config. -/
theorem c6_config_required_witness :
    ({ dataset := "d", config := none, common_hf_token := none } :
        SplitNamesFromStreamingJobRunner).compute
        (fun _ => ExternalResult.ok ["a"])
      = Except.error (ComputeError.valueError "config is required") :=
  (c6_config_required
    { dataset := "d", config := none, common_hf_token := none }
    (fun _ => ExternalResult.ok ["a"]) rfl).1

/-- C7: two runs with the same dataset, config and token against external
sources that report the same split list both succeed, and their
`get_new_splits` projections are equal as sets. -/
theorem c7_idempotent_new_splits
    (d c : String) (tok : Option String)
    (src1 src2 : UseAuthToken → ExternalResult) (splits : List String)
    (h1 : src1 (useAuthTokenOf tok) = ExternalResult.ok splits)
    (h2 : src2 (useAuthTokenOf tok) = ExternalResult.ok splits) :
    ∃ c1 c2 : SplitNamesFromStreamingResponseContent,
      compute_split_names_from_streaming_response d c tok src1 = Except.ok c1
      ∧ compute_split_names_from_streaming_response d c tok src2 = Except.ok c2
      ∧ get_new_splits c1 = get_new_splits c2 := by
  unfold compute_split_names_from_streaming_response
  rw [h1, h2]
  exact ⟨_, _, rfl, rfl, rfl⟩

/-- Witness for C7 at concrete sources reporting the same split list. -/
theorem c7_idempotent_new_splits_witness :
    ∃ c1 c2 : SplitNamesFromStreamingResponseContent,
      compute_split_names_from_streaming_response "d" "c" none
          (fun _ => ExternalResult.ok ["a", "b"]) = Except.ok c1
      ∧ compute_split_names_from_streaming_response "d" "c" none
          (fun _ => ExternalResult.ok ["a", "b"]) = Except.ok c2
      ∧ get_new_splits c1 = get_new_splits c2 :=
  c7_idempotent_new_splits "d" "c" none
    (fun _ => ExternalResult.ok ["a", "b"]) (fun _ => ExternalResult.ok ["a", "b"])
    ["a", "b"] rfl rfl

/-- C9: every item of a successful content carries the queried dataset and
config verbatim, and so does every `SplitFullName` in the projected set. -/
theorem c9_dataset_config_verbatim
    (d c : String) (tok : Option String)
    (src : UseAuthToken → ExternalResult)
    (content : SplitNamesFromStreamingResponseContent)
    (h : compute_split_names_from_streaming_response d c tok src = Except.ok content) :
    (∀ item ∈ content.split_names, item.dataset = d ∧ item.config = c)
    ∧ ∀ x ∈ get_new_splits content, x.dataset = d ∧ x.config = c := by
  revert h
  unfold compute_split_names_from_streaming_response
  cases src (useAuthTokenOf tok) with
  | ok splits =>
      intro h
      injection h with h
      subst h
      constructor
      · intro item hitem
        simp only [List.mem_map] at hitem
        obtain ⟨s, _, rfl⟩ := hitem
        exact ⟨rfl, rfl⟩
      · intro x hx
        simp only [get_new_splits, List.mem_toFinset, List.mem_map, List.map_map] at hx
        obtain ⟨s, _, rfl⟩ := hx
        exact ⟨rfl, rfl⟩
  | emptyDatasetError err => exact fun h => Except.noConfusion h
  | otherError err => exact fun h => Except.noConfusion h

/-- Witness for C9 at a concrete successful run. -/
theorem c9_dataset_config_verbatim_witness :
    (∀ item ∈ (SplitNamesFromStreamingResponseContent.mk
        [{ dataset := "d", config := "c", split := "a" }]).split_names,
      item.dataset = "d" ∧ item.config = "c")
    ∧ ∀ x ∈ get_new_splits (SplitNamesFromStreamingResponseContent.mk
        [{ dataset := "d", config := "c", split := "a" }]),
        x.dataset = "d" ∧ x.config = "c" :=
  c9_dataset_config_verbatim "d" "c" none (fun _ => ExternalResult.ok ["a"])
    (SplitNamesFromStreamingResponseContent.mk
      [{ dataset := "d", config := "c", split := "a" }]) rfl

/-- C10: both typed failure shapes carry HTTP status 500 and
`disclose_cause=True`; they differ only in their error-code string. -/
theorem c10_same_status_distinct_codes (msg : String) (cause : Option String) :
    (EmptyDatasetError msg cause).status_code = 500
    ∧ (EmptyDatasetError msg cause).disclose_cause = true
    ∧ (SplitNamesFromStreamingError msg cause).status_code = 500
    ∧ (SplitNamesFromStreamingError msg cause).disclose_cause = true
    ∧ (EmptyDatasetError msg cause).status_code
        = (SplitNamesFromStreamingError msg cause).status_code
    ∧ (EmptyDatasetError msg cause).code ≠ (SplitNamesFromStreamingError msg cause).code :=
  ⟨rfl, rfl, rfl, rfl, rfl, by
    show ("EmptyDatasetError" : String) ≠ "SplitNamesFromStreamingError"
    decide⟩

/-- C2: the access gate maps the external authority's response: 200 →
Allowed; 401 → Denied(401, "ExternalUnauthenticatedError"); 403 or 404 →
Denied(404, "ExternalAuthenticatedError"). -/
theorem c2_authority_mapping (dataset : String) (credentials : Credentials) :
    authorize dataset credentials (fun _ _ => AuthorityResponse.status 200)
      = AuthDecision.Allowed
    ∧ authorize dataset credentials (fun _ _ => AuthorityResponse.status 401)
      = AuthDecision.Denied 401 "ExternalUnauthenticatedError"
    ∧ authorize dataset credentials (fun _ _ => AuthorityResponse.status 403)
      = AuthDecision.Denied 404 "ExternalAuthenticatedError"
    ∧ authorize dataset credentials (fun _ _ => AuthorityResponse.status 404)
      = AuthDecision.Denied 404 "ExternalAuthenticatedError" :=
  ⟨rfl, rfl, rfl, rfl⟩

/-- C4: a request missing a required parameter, or supplying an empty
string for one, yields ValidationError 422, the access gate is not
consulted, no job runs, and the result does not depend on the authority at
all. -/
theorem c4_validation_short_circuits
    (params : QueryParams) (required : RequiredParams) (credentials : Credentials)
    (authority : String → Credentials → AuthorityResponse)
    (h : missingRequiredParam params required = true) :
    processEndpointRequest params required credentials authority
      = { outcome := EndpointOutcome.validationError 422
          gate_consulted := false
          job_ran := false }
    ∧ ∀ authority' : String → Credentials → AuthorityResponse,
        processEndpointRequest params required credentials authority'
          = processEndpointRequest params required credentials authority := by
  constructor
  · simp [processEndpointRequest, h]
  · intro authority'
    simp [processEndpointRequest, h]

/-- Witness for C4: the dataset is given but the required config is
absent. -/
theorem c4_validation_short_circuits_witness :
    missingRequiredParam
        { dataset := some "a", config := none, split := none }
        { needs_config := true, needs_split := false } = true
    ∧ processEndpointRequest
        { dataset := some "a", config := none, split := none }
        { needs_config := true, needs_split := false }
        { cookie := none, authorization := none }
        (fun _ _ => AuthorityResponse.status 200)
      = { outcome := EndpointOutcome.validationError 422
          gate_consulted := false
          job_ran := false } :=
  ⟨by decide,
    (c4_validation_short_circuits
      { dataset := some "a", config := none, split := none }
      { needs_config := true, needs_split := false }
      { cookie := none, authorization := none }
      (fun _ _ => AuthorityResponse.status 200) (by decide)).1⟩

/-- C8: `from_env` always sets `external_auth_url` to the common
`hf_endpoint` concatenated with `hf_auth_path`, whose default is
`"/api/datasets/%s/auth-check"`; that template has a single `%s` slot, and
the authority URL for a dataset substitutes the dataset name into it. -/
theorem c8_external_auth_url
    (env : ApiEnv) (common_config : CommonConfig) (dataset : String) :
    (ApiConfig.from_env env common_config).external_auth_url
      = some (common_config.hf_endpoint
          ++ (ApiConfig.from_env env common_config).hf_auth_path)
    ∧ (ApiConfig.from_env { env with hf_auth_path := none } common_config).hf_auth_path
      = "/api/datasets/%s/auth-check"
    ∧ countPercentS API_HF_AUTH_PATH.data = 1
    ∧ formatPercentS API_HF_AUTH_PATH dataset
      = "/api/datasets/" ++ dataset ++ "/auth-check"
    ∧ external_auth_url_for (ApiConfig.from_env env common_config) dataset
      = some (formatPercentS
          (common_config.hf_endpoint
            ++ (ApiConfig.from_env env common_config).hf_auth_path)
          dataset) := by
  refine ⟨rfl, rfl, by decide, ?_, rfl⟩
  obtain ⟨l⟩ := dataset
  show String.mk ("/api/datasets/".data ++ (l ++ "/auth-check".data))
      = String.mk (("/api/datasets/".data ++ l) ++ "/auth-check".data)
  exact congrArg String.mk (List.append_assoc _ _ _).symm

end DatasetsServer
